import Mathlib

/-!
Verification of the AmpliFi Teleport desktop tray application
(`tray_app.py`) against its natural-language specification.

The shallow embedding below translates the lifecycle functions of
`tray_app.py` into Lean. External collaborators (the WireGuard service
manager invoked through `subprocess.run`, the Windows service-control
query `sc query`, and the remote credential exchange imported from the
`teleport` module) are modelled as explicit inputs: each embedded
function takes the collaborator's responses as parameters, and the
persisted files (identity / token / config slots) are an explicit
record threaded through the functions.

The deactivation loop's accumulation `elapsed += 0.8` against
`max_wait = 8.0` runs in IEEE-754 double precision in the source, and
the accumulated rounding error decides how many polls fit in the
budget, so it is embedded exactly: every double in the loop's range is
an integer multiple of `2^-53`, so doubles are represented by their
exact numerator at that scale and each addition is rounded to the
nearest representable double, ties to even (`fadd`).  Sleeping is
accounted as an explicit cost, not performed.
-/

/-- Python `str.lower()` on the character list of a string. -/
def strLower (s : String) : String := ⟨s.data.map Char.toLower⟩

/-- Drop leading whitespace characters from a character list
(helper for Python `str.strip()`). -/
def dropWhileWs : List Char → List Char
  | [] => []
  | c :: cs => if c.isWhitespace then dropWhileWs cs else c :: cs

/-- Python `str.strip()`: remove leading and trailing whitespace. -/
def strStrip (s : String) : String :=
  ⟨(dropWhileWs (dropWhileWs s.data).reverse).reverse⟩

/-- `needle` occurs at the head of the haystack (character lists). -/
def listIsPref : List Char → List Char → Bool
  | [], _ => true
  | _ :: _, [] => false
  | a :: as, b :: bs => (a == b) && listIsPref as bs

/-- `needle` occurs somewhere in the haystack (character lists). -/
def listHasInfix (needle : List Char) : List Char → Bool
  | [] => needle.isEmpty
  | b :: bs => listIsPref needle (b :: bs) || listHasInfix needle bs

/-- Python substring test `needle in hay`. -/
def hasSub (hay needle : String) : Bool := listHasInfix needle.data hay.data

/-- The three persisted slots of the application
(`UUID_FILE`, `TOKEN_FILE`, `CONFIG_PATH` in `tray_app.py`):
each holds the file's text content when the file exists. -/
structure FsState where
  uuidFile : Option String
  tokenFile : Option String
  configFile : Option String
deriving DecidableEq, Repr

/-- Result of one remote call from the `teleport` module: either the
returned string or the message of the raised exception. -/
inductive RemoteResult where
  | ok (value : String)
  | error (msg : String)
deriving DecidableEq, Repr

/-- Modelled from the spec: the functions `generate_client_hint`,
`get_device_token` and `connect_device` are imported from the
repository's `teleport` module, whose source is not available here.
Per the spec they are black-box request/response calls: a client-hint
generator producing an opaque stable identifier string, a
(identity, PIN) → device-token exchange, and a token → config-text
exchange, each of which may fail. They are modelled as an explicit
response table passed to the embedded functions. -/
structure Remote where
  generate_client_hint : String
  get_device_token : String → String → RemoteResult
  connect_device : String → RemoteResult

/-- One outcome of the `sc query WireGuardTunnel$teleport` call inside
`is_tunnel_active` (`tray_app.py` lines 102-107): the process completed
with a return code and stdout text, or the call raised
`TimeoutExpired`, `FileNotFoundError`, or some other exception. -/
inductive QueryOutcome where
  | completed (returncode : Int) (stdout : String)
  | timeoutExpired
  | fileNotFound
  | otherError (msg : String)
deriving DecidableEq, Repr

/-- Result of one run of `is_tunnel_active`, instrumented with the
number of `sc query` invocations made and the total time slept. -/
structure MonitorRun where
  result : Bool
  queries : Nat
  sleepTime : ℚ
deriving DecidableEq, Repr

/-- The body of one attempt of `is_tunnel_active`
(`tray_app.py` lines 101-124).  `some b` means the body executed
`return b`; `none` would mean falling through to the `time.sleep(delay)`
at the bottom of the loop.  Mirrors the source: on return code 0 the
lowered output is searched for `running`, then `stopped` /
`1  stopped`, else `False`; a nonzero return code yields `False`
(service not found); every exception is caught, logged as a warning and
yields `False`. -/
def attemptBody (q : QueryOutcome) : Option Bool :=
  match q with
  | .completed returncode stdout =>
      let output := strLower stdout
      if returncode = 0 then
        if hasSub output "running" then some true
        else if hasSub output "stopped" || hasSub output "1  stopped" then some false
        else some false
      else some false
  | .timeoutExpired => some false
  | .fileNotFound => some false
  | .otherError _ => some false

/-- The `for attempt in range(retries)` loop of `is_tunnel_active`:
`i` is the current attempt index, the second argument the number of
attempts remaining.  If the body returns, the loop ends with that
result; otherwise the loop sleeps `delay` and continues; after all
retries the function returns `False` (line 129). -/
def monitorLoop (oracle : Nat → QueryOutcome) (delay : ℚ) : Nat → Nat → MonitorRun
  | _, 0 => ⟨false, 0, 0⟩
  | i, fuel + 1 =>
      match attemptBody (oracle i) with
      | some b => ⟨b, 1, 0⟩
      | none =>
          let r := monitorLoop oracle delay (i + 1) fuel
          ⟨r.result, r.queries + 1, r.sleepTime + delay⟩

/-- `is_tunnel_active(retries, delay)` (`tray_app.py` lines 98-129),
with the responses of the external `sc` command supplied per attempt
index by `oracle`. -/
def is_tunnel_active (oracle : Nat → QueryOutcome) (retries : Nat) (delay : ℚ) : MonitorRun :=
  monitorLoop oracle delay 0 retries

/-- Outcome of the `wireguard.exe /uninstalltunnelservice teleport`
call run with `check=True` in `deactivate_tunnel` (line 80): either it
succeeded, or it raised `CalledProcessError` carrying stderr text. -/
inductive RemoveOutcome where
  | ok
  | calledProcessError (stderr : String)
deriving DecidableEq, Repr

/-- Status responses available to `deactivate_tunnel`: `st k a` is the
`sc query` outcome seen by the `a`-th attempt of the `k`-th
`is_tunnel_active()` poll. -/
def pollIsActive (st : Nat → Nat → QueryOutcome) (k : Nat) : Bool :=
  (is_tunnel_active (st k) 3 1).result

/-- The IEEE-754 double nearest to the literal `0.8` of
`tray_app.py` line 84.  Every double visited by the loop is an integer
multiple of `2^-53`, so doubles are represented exactly by their
numerator at that scale: `0.8` is `0x1.999999999999Ap-1 =
7205759403792794 * 2^-53`. -/
def c08n : Nat := 7205759403792794

/-- The double `8.0` (`max_wait`, `tray_app.py` line 83) at the same
`2^-53` scale: `8 * 2^53`. -/
def maxWaitN : Nat := 72057594037927936

/-- Spacing of representable doubles around the (scaled) value `s`:
one unit in the last place of the binade `[2^k, 2^(k+1))` containing
`s / 2^53`, for the magnitudes `(0, 16)` visited by the accumulator
(the thresholds are `2^53 .. 2^56`; at or above `16.0` the `[8, 16)`
spacing is kept, which is never exercised in range). -/
def gridAt (s : Nat) : Nat :=
  if s < 9007199254740992 then 1
  else if s < 18014398509481984 then 2
  else if s < 36028797018963968 then 4
  else if s < 72057594037927936 then 8
  else 16

/-- Round the (scaled) exact sum `s` to the nearest representable
double: nearest multiple of `gridAt s`, ties to even, as IEEE-754
round-to-nearest-even prescribes. -/
def roundSig (s : Nat) : Nat :=
  if 2 * (s % gridAt s) < gridAt s then s / gridAt s * gridAt s
  else if gridAt s < 2 * (s % gridAt s) then (s / gridAt s + 1) * gridAt s
  else if s / gridAt s % 2 = 0 then s / gridAt s * gridAt s
  else (s / gridAt s + 1) * gridAt s

/-- IEEE double addition for this value range: the exact sum, rounded
to the nearest representable double (scaled by `2^53`). -/
def fadd (x y : Nat) : Nat := roundSig (x + y)

/-- The value of the Python float `elapsed` before the `k`-th
iteration check of the poll loop (`tray_app.py` lines 85-90), scaled
by `2^53`: `elapsed = 0.0` initially, then `elapsed += 0.8` in double
arithmetic after every poll.  Because `0.8` is not representable, the
accumulated value drifts: after ten additions `elapsed` is
`72057594037927928 * 2^-53 = 7.999999999999999…`, still below `8.0`. -/
def elapsedSeq : Nat → Nat
  | 0 => 0
  | k + 1 => fadd (elapsedSeq k) c08n

/-- The confirmation poll loop of `deactivate_tunnel`
(`tray_app.py` lines 83-90): `while elapsed < max_wait`, poll,
`sleep 0.8`, `elapsed += 0.8`, with `elapsed` accumulated in double
precision as in the source.  `k` is the poll index (so the running
`elapsed` is `elapsedSeq k`); returns the number of polls performed
and whether some poll observed the tunnel inactive (the early
`return True, "Tunnel deactivated!"`). -/
def pollLoopF (active : Nat → Bool) (k : Nat) : Nat × Bool :=
  if h : elapsedSeq k < maxWaitN then
    if active k = false then (1, true)
    else
      let r := pollLoopF active (k + 1)
      (r.1 + 1, r.2)
  else (0, false)
termination_by 12 - k
decreasing_by
  have hmono : ∀ m, maxWaitN ≤ elapsedSeq m → maxWaitN ≤ elapsedSeq (m + 1) := by
    intro m hm
    have hr : elapsedSeq m + c08n ≤ roundSig (elapsedSeq m + c08n) + 15 := by
      unfold roundSig gridAt
      split_ifs <;> omega
    have hs : elapsedSeq (m + 1) = roundSig (elapsedSeq m + c08n) := rfl
    have hc : (15 : Nat) < c08n := by norm_num [c08n]
    omega
  have hge : ∀ m, 11 ≤ m → maxWaitN ≤ elapsedSeq m := by
    intro m hm
    induction m with
    | zero => omega
    | succ n ih =>
        rcases Nat.lt_or_ge n 11 with hlt | hge2
        · have hn : n = 10 := by omega
          subst hn
          decide
        · exact hmono n (ih (by omega))
  have hk : k < 11 := by
    by_contra hcon
    push_neg at hcon
    exact absurd h (not_lt.mpr (hge k hcon))
  omega

/-- Result of `deactivate_tunnel`, instrumented with the number of
status polls made by the confirmation loop. -/
structure DeactResult where
  success : Bool
  msg : String
  polls : Nat
deriving DecidableEq, Repr

/-- `deactivate_tunnel()` (`tray_app.py` lines 78-96): issue the
removal command; on success poll until the service is gone or the
wait budget is spent; on `CalledProcessError` return the `not found`
outcome or a generic failure. -/
def deactivate_tunnel (remove : RemoveOutcome) (st : Nat → Nat → QueryOutcome) : DeactResult :=
  match remove with
  | .ok =>
      let r := pollLoopF (pollIsActive st) 0
      if r.2 then ⟨true, "Tunnel deactivated!", r.1⟩
      else ⟨true, "Tunnel deactivation requested (status may take a moment to update)", r.1⟩
  | .calledProcessError stderr =>
      if hasSub (strLower stderr) "not found" then ⟨false, "Tunnel not active.", 0⟩
      else ⟨false, "Deactivation failed: " ++ stderr, 0⟩

/-- Modelled from the spec (§6 external service manager, a collaborator
outside the repository): `remove-service(name)` removes the installed
service if present; it reports success exactly when a service existed.
The manager's state is the installed config, if any. -/
def removeService (mgr : Option String) : Option String × Bool := (none, mgr.isSome)

/-- Modelled from the spec (§6 external service manager):
`install-service(name, config)` installs the service from the config
and fails exactly when a service of that name is already installed. -/
def installService (cfg : String) (mgr : Option String) : Option String × Bool :=
  match mgr with
  | none => (some cfg, true)
  | some c => (some c, false)

/-- Result of `activate_tunnel`, with the service manager state after
the call. -/
structure ActResult where
  success : Bool
  msg : String
  mgr : Option String
deriving DecidableEq, Repr

/-- `activate_tunnel()` (`tray_app.py` lines 65-76): fail if no config
file exists; otherwise run the uninstall command ignoring its result,
then run the install command with `check=True` from the config file. -/
def activate_tunnel (fs : FsState) (mgr : Option String) : ActResult :=
  match fs.configFile with
  | none => ⟨false, "No config found. Generate one first.", mgr⟩
  | some cfg =>
      let mgr1 := (removeService mgr).1
      match installService cfg mgr1 with
      | (mgr2, true) => ⟨true, "Tunnel activated!", mgr2⟩
      | (mgr2, false) => ⟨false, "Activation failed: already installed", mgr2⟩

/-- The identity block of `generate_config` (`tray_app.py` lines
43-49): load the UUID file and strip it if it exists, else obtain a
fresh client hint from the remote module and persist it verbatim. -/
def getOrCreateIdentity (rem : Remote) (fs : FsState) : String × FsState :=
  match fs.uuidFile with
  | some contents => (strStrip contents, fs)
  | none =>
      (rem.generate_client_hint, { fs with uuidFile := some rem.generate_client_hint })

/-- `generate_config(pin)` (`tray_app.py` lines 38-63).  With a PIN:
create-or-load the identity, exchange (identity, PIN) for a device
token, persist the token, then exchange the token for config text and
persist it.  Without a PIN: read and strip the persisted token
(failing when absent), then exchange it for config text.  Any raised
exception is returned as `(False, message)`. -/
def generate_config (rem : Remote) (pin : Option String) (fs : FsState) :
    (Bool × String) × FsState :=
  match pin with
  | some p =>
      let idr := getOrCreateIdentity rem fs
      match rem.get_device_token idr.1 p with
      | .error e => ((false, e), idr.2)
      | .ok device_token =>
          let fs2 := { idr.2 with tokenFile := some device_token }
          match rem.connect_device device_token with
          | .error e => ((false, e), fs2)
          | .ok config_str => ((true, config_str), { fs2 with configFile := some config_str })
  | none =>
      match fs.tokenFile with
      | none => ((false, "No previous token found. Please enter a new PIN."), fs)
      | some contents =>
          let device_token := strStrip contents
          match rem.connect_device device_token with
          | .error e => ((false, e), fs)
          | .ok config_str => ((true, config_str), { fs with configFile := some config_str })

/-- The token-load path of `generate_config` (`tray_app.py` lines
54-57): read the persisted token file and strip it; `none` when the
token file is absent. -/
def loadToken (fs : FsState) : Option String := fs.tokenFile.map strStrip

/-- `show_pin_dialog(and_activate)` (`tray_app.py` lines 131-146):
`pinInput` is the value returned by the PIN dialog (`none` when
cancelled; the empty string is falsy in Python's `if pin:`).  On a
non-empty PIN, generate the config and, when requested and successful,
activate; every failure is reported through a dialog only.  Returns the
resulting file slots and service-manager state. -/
def show_pin_dialog (rem : Remote) (and_activate : Bool) (pinInput : Option String)
    (fs : FsState) (mgr : Option String) : FsState × Option String :=
  match pinInput with
  | none => (fs, mgr)
  | some p =>
      if p = "" then (fs, mgr)
      else
        let r := generate_config rem (some p) fs
        if r.1.1 then
          if and_activate then
            let a := activate_tunnel r.2 mgr
            (r.2, a.mgr)
          else (r.2, mgr)
        else (r.2, mgr)

/-- `on_refresh_config` (`tray_app.py` lines 148-159): guard on the
token file, regenerate the config without a PIN, then activate. -/
def on_refresh_config (rem : Remote) (fs : FsState) (mgr : Option String) :
    (Bool × String) × FsState × Option String :=
  match fs.tokenFile with
  | none => ((false, "No previous configuration. Enter a PIN first."), fs, mgr)
  | some _ =>
      let r := generate_config rem none fs
      if r.1.1 then
        let a := activate_tunnel r.2 mgr
        ((a.success, a.msg), r.2, a.mgr)
      else ((false, r.1.2), r.2, mgr)

/-- `on_connect` (`tray_app.py` lines 161-169).  When no token file
exists, the PIN-dialog flow runs inside `try`: `dialogRaises` models
the flow raising an exception (the only way the `except` branch can be
reached); otherwise the fixed success outcome is returned.  When a
token exists, delegate to `on_refresh_config`. -/
def on_connect (rem : Remote) (pinInput : Option String) (dialogRaises : Bool)
    (fs : FsState) (mgr : Option String) : (Bool × String) × FsState × Option String :=
  match fs.tokenFile with
  | none =>
      if dialogRaises then ((false, "Error Creating New Connection"), fs, mgr)
      else
        let s := show_pin_dialog rem true pinInput fs mgr
        ((true, "Successfully Created New Connection"), s.1, s.2)
  | some _ => on_refresh_config rem fs mgr

/-- Python truthiness of the guard expression on `tray_app.py`
line 172: `if not is_tunnel_active:` references the function object
without calling it, and a function object is always truthy. -/
def callableTruthy : Bool := true

/-- `on_disconnect` (`tray_app.py` lines 171-178): the guard branch
fires only when the referenced callable is falsy; otherwise
`deactivate_tunnel` runs and its outcome is returned. -/
def on_disconnect (remove : RemoveOutcome) (st : Nat → Nat → QueryOutcome) : Bool × String :=
  if callableTruthy = false then (false, "No Teleport Tunnel is active")
  else
    let r := deactivate_tunnel remove st
    (r.success, r.msg)

/-- The three persisted slots named in `on_delete_config`. -/
inductive Slot where
  | token
  | uuid
  | config
deriving DecidableEq, Repr

/-- One `if os.path.exists(f): os.remove(f)` step of `on_delete_config`
(`tray_app.py` lines 184-189): when the slot is absent the step is
skipped; when present, `os.remove` either deletes it or raises (`fail`),
leaving the slot in place. -/
def removeStep (fail : Bool) (slot : Option String) : Except Unit (Option String) :=
  match slot with
  | none => .ok none
  | some _ => if fail then .error () else .ok none

/-- `on_delete_config` (`tray_app.py` lines 180-194): after the
confirmation dialog, deactivate ignoring the result, then delete the
token, uuid and config slots in order inside a single `try` block; the
first raising deletion aborts the rest and returns the error outcome.
`fails s` tells whether `os.remove` on slot `s` would raise.  Returns
`none` for the outcome when the confirmation dialog was declined. -/
def on_delete_config (confirm : Bool) (remove : RemoveOutcome)
    (st : Nat → Nat → QueryOutcome) (fails : Slot → Bool) (fs : FsState) :
    Option (Bool × String) × FsState :=
  if confirm then
    let _ := deactivate_tunnel remove st
    match removeStep (fails .token) fs.tokenFile with
    | .error _ => (some (false, "Error while deleting configuration"), fs)
    | .ok tok =>
        let fs1 := { fs with tokenFile := tok }
        match removeStep (fails .uuid) fs1.uuidFile with
        | .error _ => (some (false, "Error while deleting configuration"), fs1)
        | .ok u =>
            let fs2 := { fs1 with uuidFile := u }
            match removeStep (fails .config) fs2.configFile with
            | .error _ => (some (false, "Error while deleting configuration"), fs2)
            | .ok c => (some (true, "Configuration Deleted"), { fs2 with configFile := c })
  else (none, fs)

/-- Concrete `sc query` behavior of a host on which the tunnel service
does not exist: every query completes with a nonzero return code and a
`not found` diagnostic. -/
def stGone : Nat → Nat → QueryOutcome :=
  fun _ _ => .completed 1060 "The specified service does not exist as an installed service."

/-- Concrete `sc query` behavior of a host on which the tunnel service
stays running throughout: every query completes successfully with a
running report. -/
def stBusy : Nat → Nat → QueryOutcome :=
  fun _ _ => .completed 0 "SERVICE_NAME: WireGuardTunnel STATE : 4 RUNNING"

/-- Concrete remote-module behavior that issues the token `tok` and the
config text `cfg` for every request. -/
def remEx : Remote :=
  ⟨"uuid-1234", fun _ _ => .ok "tok", fun _ => .ok "cfg"⟩

/-- Concrete remote-module behavior whose issued token carries a
trailing space. -/
def remPad : Remote :=
  ⟨"uuid-1234", fun _ _ => .ok "tok ", fun _ => .ok "cfg"⟩

/-- Deletion behavior in which removing the token slot raises and the
other two removals would succeed. -/
def failsTok : Slot → Bool
  | .token => true
  | _ => false

lemma attemptBody_ne_none (q : QueryOutcome) : attemptBody q ≠ none := by
  cases q <;> simp only [attemptBody] <;> (try split) <;> (try split) <;> simp

lemma monitorLoop_succ (oracle : Nat → QueryOutcome) (delay : ℚ) (i n : Nat) :
    ∃ b, attemptBody (oracle i) = some b ∧ monitorLoop oracle delay i (n + 1) = ⟨b, 1, 0⟩ := by
  rcases hb : attemptBody (oracle i) with _ | b
  · exact absurd hb (attemptBody_ne_none _)
  · exact ⟨b, rfl, by simp [monitorLoop, hb]⟩

lemma roundSig_ge (s : Nat) : s ≤ roundSig s + 15 := by
  unfold roundSig gridAt
  split_ifs <;> omega

lemma elapsedSeq_lt_max : ∀ k, k < 11 → elapsedSeq k < maxWaitN := by decide

lemma elapsedSeq_ge_max : ∀ k, 11 ≤ k → maxWaitN ≤ elapsedSeq k := by
  intro k hk
  induction k with
  | zero => omega
  | succ n ih =>
      rcases Nat.lt_or_ge n 11 with hlt | hge
      · have hn : n = 10 := by omega
        subst hn
        decide
      · have h8 := ih (by omega)
        have hr := roundSig_ge (elapsedSeq n + c08n)
        have hc : (15 : Nat) < c08n := by norm_num [c08n]
        have hs : elapsedSeq (n + 1) = roundSig (elapsedSeq n + c08n) := rfl
        omega

lemma pollLoopF_polls_le (active : Nat → Bool) :
    ∀ n k, 11 ≤ k + n → (pollLoopF active k).1 ≤ n := by
  intro n
  induction n with
  | zero =>
      intro k hk
      rw [pollLoopF, dif_neg (not_lt.mpr (elapsedSeq_ge_max k (by omega)))]
  | succ n ih =>
      intro k hk
      rw [pollLoopF]
      by_cases h8 : elapsedSeq k < maxWaitN
      · rw [dif_pos h8]
        by_cases ha : active k = false
        · rw [if_pos ha]
          omega
        · rw [if_neg ha]
          have := ih (k + 1) (by omega)
          simpa using Nat.succ_le_succ this
      · rw [dif_neg h8]
        exact Nat.zero_le _

lemma pollLoopF_all_active (active : Nat → Bool) (hall : ∀ k, k < 11 → active k = true) :
    ∀ n k, k + n = 11 → pollLoopF active k = (n, false) := by
  intro n
  induction n with
  | zero =>
      intro k hk
      rw [pollLoopF, dif_neg (not_lt.mpr (elapsedSeq_ge_max k (by omega)))]
  | succ n ih =>
      intro k hk
      have h8 : elapsedSeq k < maxWaitN := elapsedSeq_lt_max k (by omega)
      rw [pollLoopF, dif_pos h8, hall k (by omega), if_neg (by simp)]
      rw [ih (k + 1) (by omega)]

/-- C4: for every call of the status monitor with `retries = N` and a
nonnegative delay `d`, at most `N` status queries are performed, the
total time slept is at most `N * d` (so the loop terminates within
that bound), and when no attempt observes a running report the result
is not-active. -/
theorem status_monitor_retry_bound (oracle : Nat → QueryOutcome) (retries : Nat)
    (delay : ℚ) (hd : 0 ≤ delay) :
    (is_tunnel_active oracle retries delay).queries ≤ retries
  ∧ (is_tunnel_active oracle retries delay).sleepTime ≤ (retries : ℚ) * delay
  ∧ ((∀ i, i < retries → attemptBody (oracle i) ≠ some true) →
      (is_tunnel_active oracle retries delay).result = false) := by
  cases retries with
  | zero => refine ⟨le_refl _, by simp [is_tunnel_active, monitorLoop], fun _ => rfl⟩
  | succ n =>
      obtain ⟨b, hb, hrun⟩ := monitorLoop_succ oracle delay 0 n
      unfold is_tunnel_active
      rw [hrun]
      refine ⟨Nat.succ_le_succ (Nat.zero_le n), ?_, fun hall => ?_⟩
      · have : (0 : ℚ) ≤ (n + 1 : ℕ) * delay := by positivity
        simpa using this
      · have h0 := hall 0 (Nat.succ_pos n)
        cases b with
        | true => exact absurd hb h0
        | false => rfl

/-- C4 witness: a concrete run with three timing-out queries. -/
theorem status_monitor_retry_bound_witness :
    (0 : ℚ) ≤ 1
  ∧ (∀ i, i < 3 → attemptBody ((fun _ => QueryOutcome.timeoutExpired) i) ≠ some true)
  ∧ (is_tunnel_active (fun _ => .timeoutExpired) 3 1).queries ≤ 3
  ∧ (is_tunnel_active (fun _ => .timeoutExpired) 3 1).result = false :=
  ⟨by norm_num, by decide,
   (status_monitor_retry_bound (fun _ => .timeoutExpired) 3 1 (by norm_num)).1,
   (status_monitor_retry_bound (fun _ => .timeoutExpired) 3 1 (by norm_num)).2.2 (by decide)⟩

/-- C3 counterexample: a transport error (query timeout) and a definite
not-running answer (nonzero return code, service does not exist)
produce identical results of the status query — the code returns a
two-valued boolean, so transport errors are not distinguishable from a
definite not-running answer, contrary to the claimed tri-state. -/
theorem status_transport_error_indistinguishable :
    is_tunnel_active (fun _ => .timeoutExpired) 3 1
      = is_tunnel_active
          (fun _ => .completed 1060
            "The specified service does not exist as an installed service.") 3 1 := by
  decide

/-- C3 amended: the status query classifies into a boolean, not a
tri-state: a completed query reports active exactly when its return
code is 0 and the lowered output contains `running`; a stopped or
not-found or unclassified report yields `false`; a timeout, missing
binary, or any other error is caught (never raised) and also yields
`false`, indistinguishable from not-running. -/
theorem status_query_boolean_classification (retries : Nat) (delay : ℚ)
    (h : 0 < retries) (rc : Int) (out : String) :
    ((is_tunnel_active (fun _ => .completed rc out) retries delay).result
      = (decide (rc = 0) && hasSub (strLower out) "running"))
  ∧ (is_tunnel_active (fun _ => .timeoutExpired) retries delay).result = false
  ∧ (is_tunnel_active (fun _ => .fileNotFound) retries delay).result = false
  ∧ ∀ m, (is_tunnel_active (fun _ => .otherError m) retries delay).result = false := by
  obtain ⟨n, rfl⟩ : ∃ n, retries = n + 1 := ⟨retries - 1, by omega⟩
  refine ⟨?_, by simp [is_tunnel_active, monitorLoop, attemptBody],
          by simp [is_tunnel_active, monitorLoop, attemptBody],
          fun m => by simp [is_tunnel_active, monitorLoop, attemptBody]⟩
  simp only [is_tunnel_active, monitorLoop, attemptBody]
  by_cases hrc : rc = 0
  · rw [if_pos hrc]
    by_cases hr : hasSub (strLower out) "running" = true
    · simp [hr, hrc]
    · by_cases hs : (hasSub (strLower out) "stopped" || hasSub (strLower out) "1  stopped") = true
      · simp [hr, hs, hrc]
      · simp [hr, hs, hrc]
  · simp [hrc]

/-- C3 amended witness: a concrete running report. -/
theorem status_query_boolean_classification_witness :
    0 < 3
  ∧ (is_tunnel_active
       (fun _ => .completed 0 "SERVICE_NAME: x STATE : 4 RUNNING") 3 1).result
      = (decide ((0 : Int) = 0)
          && hasSub (strLower "SERVICE_NAME: x STATE : 4 RUNNING") "running") :=
  ⟨by decide,
   (status_query_boolean_classification 3 1 (by decide)
     0 "SERVICE_NAME: x STATE : 4 RUNNING").1⟩

/-- C5 counterexample: on a host whose service stays reported running
throughout, the acknowledged deactivation performs 11 status polls,
not at most 10: the double accumulation `elapsed += 0.8` reaches only
`7.999999999999999 < 8.0` after ten additions, so an eleventh loop
iteration runs before the budget check fails. -/
theorem deactivate_poll_budget_counterexample :
    (deactivate_tunnel .ok stBusy).polls = 11
  ∧ ¬ ((deactivate_tunnel .ok stBusy).polls ≤ 10) := by
  have h := pollLoopF_all_active (pollIsActive stBusy) (by decide) 11 0 rfl
  constructor <;> simp [deactivate_tunnel, h]

/-- C5 amended: when the removal command is acknowledged successfully,
the confirmation poll loop performs at most 11 status polls (the
float accumulation of `0.8` stays below `8.0` for ten additions, so
the nominal 10-poll budget admits one extra poll), the operation
returns a success outcome in every case, the success is immediate
(one poll) when the service is observed gone at once, and the
advisory qualifier is returned after exactly 11 polls when the
service is still reported active throughout the budget. -/
theorem deactivate_poll_bounded (st : Nat → Nat → QueryOutcome) :
    (deactivate_tunnel .ok st).polls ≤ 11
  ∧ (deactivate_tunnel .ok st).success = true
  ∧ (pollIsActive st 0 = false →
      deactivate_tunnel .ok st = ⟨true, "Tunnel deactivated!", 1⟩)
  ∧ ((∀ k, k < 11 → pollIsActive st k = true) →
      deactivate_tunnel .ok st =
        ⟨true, "Tunnel deactivation requested (status may take a moment to update)", 11⟩) := by
  have hle := pollLoopF_polls_le (pollIsActive st) 11 0 (by omega)
  refine ⟨?_, ?_, fun h1 => ?_, fun hall => ?_⟩
  · simp only [deactivate_tunnel]
    split <;> exact hle
  · simp only [deactivate_tunnel]
    split <;> rfl
  · have h0 : pollLoopF (pollIsActive st) 0 = (1, true) := by
      rw [pollLoopF, dif_pos (elapsedSeq_lt_max 0 (by omega)), if_pos h1]
    simp [deactivate_tunnel, h0]
  · have h0 : pollLoopF (pollIsActive st) 0 = (11, false) :=
      pollLoopF_all_active (pollIsActive st) hall 11 0 rfl
    simp [deactivate_tunnel, h0]

/-- C5 amended witness: a host on which the service is already gone at
the first poll. -/
theorem deactivate_poll_bounded_witness :
    pollIsActive stGone 0 = false
  ∧ deactivate_tunnel .ok stGone = ⟨true, "Tunnel deactivated!", 1⟩ :=
  ⟨by decide, (deactivate_poll_bounded stGone).2.2.1 (by decide)⟩

/-- C1 counterexample: when the manager reports the service was not
found on removal, `deactivate_tunnel` returns with its success flag
`false` — a failure result, not the claimed non-error outcome. -/
theorem deactivate_not_found_counterexample :
    (deactivate_tunnel (.calledProcessError "Service teleport not found.") stGone).success
      = false
  ∧ (deactivate_tunnel (.calledProcessError "Service teleport not found.") stGone).msg
      = "Tunnel not active." := by
  decide

/-- C1 amended: for every removal rejection whose lowered stderr
contains `not found`, `deactivate_tunnel` returns the distinguished
outcome `(False, "Tunnel not active.")`: the not-active case is
recognized and carries its own message, distinguishable from other
deactivation failures, but it is flagged as a failure (success =
`false`), not as a non-error result. -/
theorem deactivate_not_found_failure_flag (stderr : String)
    (st : Nat → Nat → QueryOutcome) (h : hasSub (strLower stderr) "not found" = true) :
    deactivate_tunnel (.calledProcessError stderr) st = ⟨false, "Tunnel not active.", 0⟩ := by
  simp [deactivate_tunnel, h]

/-- C1 amended witness: a concrete not-found rejection. -/
theorem deactivate_not_found_failure_flag_witness :
    hasSub (strLower "Service teleport not found.") "not found" = true
  ∧ deactivate_tunnel (.calledProcessError "Service teleport not found.") stGone
      = ⟨false, "Tunnel not active.", 0⟩ :=
  ⟨by decide, deactivate_not_found_failure_flag "Service teleport not found." stGone (by decide)⟩

/-- C2 counterexample: on a host whose status query would report the
tunnel service gone (so no tunnel is active), `on_disconnect` does not
return the guard message `No Teleport Tunnel is active` that the
claimed status query would produce — the result is `deactivate`'s
`Tunnel not active.` failure outcome, so no status query guards the
call. -/
theorem disconnect_guard_never_queries :
    pollIsActive stGone 0 = false
  ∧ on_disconnect (.calledProcessError "Service teleport not found.") stGone
      = (false, "Tunnel not active.")
  ∧ ¬ ((false, "Tunnel not active.")
        = ((false : Bool), "No Teleport Tunnel is active")) := by
  decide

/-- C2 amended: the guard on line 172 tests the truthiness of the
function object `is_tunnel_active` (always true), so the tunnel status
is never queried, the guard branch is unreachable, and the
deactivation command is issued unconditionally: `on_disconnect` always
returns exactly the outcome of `deactivate_tunnel`. -/
theorem disconnect_unconditional_deactivate (remove : RemoveOutcome)
    (st : Nat → Nat → QueryOutcome) :
    on_disconnect remove st
      = ((deactivate_tunnel remove st).success, (deactivate_tunnel remove st).msg) := by
  simp [on_disconnect, callableTruthy]

/-- C7: activation is idempotent — with a config file present, the
first `activate_tunnel` leaves the manager with exactly that config
installed, and a second `activate_tunnel` on the resulting manager
state succeeds (it never fails with `already installed`, because the
existing service is removed first) and leaves the installed state
unchanged. -/
theorem activate_idempotent (fs : FsState) (mgr : Option String) (cfg : String)
    (hc : fs.configFile = some cfg) :
    (activate_tunnel fs mgr).success = true
  ∧ (activate_tunnel fs mgr).mgr = some cfg
  ∧ activate_tunnel fs (activate_tunnel fs mgr).mgr
      = ⟨true, "Tunnel activated!", some cfg⟩ := by
  simp [activate_tunnel, hc, removeService, installService]

/-- C7 witness: double activation from a concrete config. -/
theorem activate_idempotent_witness :
    (FsState.mk none none (some "cfg")).configFile = some "cfg"
  ∧ activate_tunnel ⟨none, none, some "cfg"⟩
      (activate_tunnel ⟨none, none, some "cfg"⟩ none).mgr
      = ⟨true, "Tunnel activated!", some "cfg"⟩ :=
  ⟨rfl, (activate_idempotent ⟨none, none, some "cfg"⟩ none "cfg" rfl).2.2⟩

/-- C8 counterexample: when the remote credential service returns the
token `"tok "` (with a trailing space), the issue path persists it
verbatim but the load path strips it on read, so the persist-then-load
round trip returns `"tok"`, not the same token value. -/
theorem token_round_trip_strips_whitespace :
    (generate_config remPad (some "AB123") ⟨none, none, none⟩).2.tokenFile = some "tok "
  ∧ loadToken (generate_config remPad (some "AB123") ⟨none, none, none⟩).2 = some "tok"
  ∧ ¬ (some "tok" = some "tok ") := by
  decide

/-- C8 amended: for every token `t` issued by the remote service, the
issue path persists `t` exactly, and the load path returns the
whitespace-stripped `strStrip t`; the round trip is the identity
precisely on tokens without leading or trailing whitespace. -/
theorem token_round_trip_after_strip (rem : Remote) (p : String) (fs : FsState)
    (t : String)
    (ht : rem.get_device_token (getOrCreateIdentity rem fs).1 p = .ok t) :
    (generate_config rem (some p) fs).2.tokenFile = some t
  ∧ loadToken (generate_config rem (some p) fs).2 = some (strStrip t)
  ∧ (strStrip t = t → loadToken (generate_config rem (some p) fs).2 = some t) := by
  have h : ∀ r : (Bool × String) × FsState,
      r = generate_config rem (some p) fs → r.2.tokenFile = some t := by
    intro r hr
    rw [hr]
    simp only [generate_config, ht]
    rcases rem.connect_device t with v | m <;> simp
  have h1 := h _ rfl
  refine ⟨h1, ?_, fun hs => ?_⟩
  · simp [loadToken, h1]
  · simp [loadToken, h1, hs]

/-- C8 amended witness: a concrete whitespace-free token. -/
theorem token_round_trip_after_strip_witness :
    remEx.get_device_token (getOrCreateIdentity remEx ⟨none, none, none⟩).1 "AB123"
      = .ok "tok"
  ∧ loadToken (generate_config remEx (some "AB123") ⟨none, none, none⟩).2 = some "tok" :=
  ⟨rfl, (token_round_trip_after_strip remEx "AB123" ⟨none, none, none⟩ "tok" rfl).2.2
          (by decide)⟩

/-- C9: the device identity slot, once present with content `h`, is
left unchanged by PIN-carrying config generation (which loads
`strStrip h` from it, hence `h` itself for a whitespace-free
identifier) and by PIN-less refresh generation, and is deleted by a
reset whose deletions succeed; when the slot is absent, the first
PIN-carrying generation creates it with the freshly generated client
hint. -/
theorem identity_created_once_immutable (rem : Remote) (p : String) (fs : FsState)
    (h : String) (remove : RemoveOutcome) (st : Nat → Nat → QueryOutcome)
    (hset : fs.uuidFile = some h) :
    (generate_config rem (some p) fs).2.uuidFile = some h
  ∧ (generate_config rem none fs).2.uuidFile = some h
  ∧ (strStrip h = h → (getOrCreateIdentity rem fs).1 = h)
  ∧ (on_delete_config true remove st (fun _ => false) fs).2.uuidFile = none
  ∧ (∀ fs0 : FsState, fs0.uuidFile = none →
      (generate_config rem (some p) fs0).2.uuidFile = some rem.generate_client_hint) := by
  refine ⟨?_, ?_, fun hs => ?_, ?_, fun fs0 h0 => ?_⟩
  · simp only [generate_config, getOrCreateIdentity, hset]
    rcases hgt : rem.get_device_token (strStrip h) p with v | m
    · rcases hcd : rem.connect_device v with w | m2 <;> simp [hgt, hcd, hset]
    · simp [hgt, hset]
  · simp only [generate_config]
    rcases htok : fs.tokenFile with _ | contents
    · simp [htok, hset]
    · rcases hcd : rem.connect_device (strStrip contents) with v | m <;>
        simp [htok, hcd, hset]
  · simp [getOrCreateIdentity, hset, hs]
  · rcases fs with ⟨u, tok, c⟩
    cases u <;> cases tok <;> cases c <;> simp [on_delete_config, removeStep]
  · simp only [generate_config, getOrCreateIdentity, h0]
    rcases hgt : rem.get_device_token rem.generate_client_hint p with v | m
    · rcases hcd : rem.connect_device v with w | m2 <;> simp [hgt, hcd]
    · simp [hgt]

/-- C9 witness: a concrete populated identity slot. -/
theorem identity_created_once_immutable_witness :
    (FsState.mk (some "uuid-1234") none none).uuidFile = some "uuid-1234"
  ∧ (generate_config remEx (some "AB123") ⟨some "uuid-1234", none, none⟩).2.uuidFile
      = some "uuid-1234"
  ∧ (getOrCreateIdentity remEx ⟨some "uuid-1234", none, none⟩).1 = "uuid-1234" := by
  have h := identity_created_once_immutable remEx "AB123"
    ⟨some "uuid-1234", none, none⟩ "uuid-1234" .ok stGone rfl
  exact ⟨rfl, h.1, h.2.2.1 (by decide)⟩

/-- C10: whenever no token is persisted and the PIN-dialog flow does
not raise, `on_connect` returns the fixed success outcome regardless
of the dialog's PIN input and of every remote, generation or
activation failure (those are surfaced only as dialogs inside the
flow); it reports failure exactly when the flow raises. -/
theorem connect_no_token_reports_success (rem : Remote) (pinInput : Option String)
    (fs : FsState) (mgr : Option String) (h : fs.tokenFile = none) :
    (on_connect rem pinInput false fs mgr).1
      = (true, "Successfully Created New Connection")
  ∧ (on_connect rem pinInput true fs mgr).1
      = (false, "Error Creating New Connection") := by
  simp [on_connect, h]

/-- C10 witness: no token persisted, the PIN prompt cancelled. -/
theorem connect_no_token_reports_success_witness :
    (FsState.mk none none none).tokenFile = none
  ∧ (on_connect remEx none false ⟨none, none, none⟩ none).1
      = (true, "Successfully Created New Connection") :=
  ⟨rfl, (connect_no_token_reports_success remEx none ⟨none, none, none⟩ none rfl).1⟩

/-- C6 counterexample: with all three slots present and a deletion
behavior in which only the token removal raises, the reset leaves the
identity and config slots untouched even though their removals would
have succeeded — the failure on the first slot prevented the deletion
attempts on the other slots. -/
theorem reset_failure_blocks_remaining_deletes :
    failsTok .uuid = false
  ∧ failsTok .config = false
  ∧ on_delete_config true (.calledProcessError "x") stGone failsTok
      ⟨some "id", some "tok", some "cfg"⟩
      = (some (false, "Error while deleting configuration"),
         ⟨some "id", some "tok", some "cfg"⟩) := by
  decide

/-- C6 amended: the three deletions are attempted sequentially inside
a single guarded block, so a failing deletion aborts the remaining
attempts; when no deletion fails, the reset converges to all three
slots absent from every initial combination of present/absent slots,
with the success outcome. -/
theorem reset_all_absent_when_no_failure (remove : RemoveOutcome)
    (st : Nat → Nat → QueryOutcome) (fs : FsState) :
    on_delete_config true remove st (fun _ => false) fs
      = (some (true, "Configuration Deleted"), ⟨none, none, none⟩) := by
  rcases fs with ⟨u, tok, c⟩
  cases u <;> cases tok <;> cases c <;> simp [on_delete_config, removeStep]
